import Mathlib

/-!
Shallow embedding of `crates/runtimes/src/kernelspecs.rs`: runtime discovery
and launch for Jupyter-protocol kernels.  Paths are modelled as the list of
segments below the root, the filesystem as a capability record, the OS's
ephemeral-port assignment as an explicit oracle, and external-process commands
as a record of program, arguments and explicitly set environment variables.
-/

/-- A filesystem path, as the list of its segments below the root; `[]` is the
root itself. -/
abbrev KPath := List String

/-- Rust `Path::file_name`: the final segment of the path, if any. -/
def fileName (p : KPath) : Option String := p.getLast?

/-- Rust `Path::join` with a single extra segment. -/
def pathJoin (p : KPath) (seg : String) : KPath := p ++ [seg]

/-- `runtimelib::JupyterKernelspec`, the parsed contents of a `kernel.json`
descriptor: required `argv`, optional `display_name`, `language` and `env`. -/
structure JupyterKernelspec where
  argv : List String
  display_name : Option String := none
  language : Option String := none
  env : Option (List (String × String)) := none
deriving Repr, DecidableEq

/-- `Runtime` from `kernelspecs.rs`: a discovered kernel specification. -/
structure Runtime where
  name : String
  path : KPath
  spec : JupyterKernelspec
deriving Repr, DecidableEq

/-- `smol::process::Command` (which wraps `std::process::Command`): the program,
the argument list accumulated by `arg`, and the environment variables explicitly
set on the command by `envs`. -/
structure Command where
  program : String
  args : List String
  env : List (String × String)
deriving Repr, DecidableEq

/-- `Command::new`. -/
def Command.new (program : String) : Command :=
  { program := program, args := [], env := [] }

/-- `Command::arg`: append one argument. -/
def Command.arg (c : Command) (a : String) : Command :=
  { c with args := c.args ++ [a] }

/-- `Command::envs`: add or update environment variable mappings on the
command. -/
def Command.addEnvs (c : Command) (e : List (String × String)) : Command :=
  { c with env := c.env ++ e }

/-- The environment the spawned child process sees (documented
`std::process::Command` semantics): the parent's environment, with each
variable explicitly set on the command added or updated, later entries
overriding earlier ones. -/
def Command.childEnv (c : Command) (parent : String → Option String) :
    String → Option String :=
  c.env.foldl (fun m kv k => if k = kv.1 then some kv.2 else m k) parent

/-- The reserved placeholder token `"\x7bconnection_file\x7d"`. -/
def connectionFilePlaceholder : String := "\x7bconnection_file\x7d"

/-- The three launch-builder failures of `Runtime::command`, in the order the
source checks them (the source carries them as distinct `anyhow` messages). -/
inductive CommandError
  | emptyArgv
  | invalidArgv
  | missingConnectionFilePlaceholder
deriving Repr, DecidableEq

/-- `Runtime::command`: build the launch command for a kernel specification and
a connection-file path.  Checks, in order: empty `argv`, `argv` shorter than
two tokens, no token equal to the placeholder.  Then the program is `argv[0]`
and each token of `argv[1..]` is passed verbatim unless it equals the
placeholder, in which case the connection path is passed instead; finally the
spec's `env`, when present, is applied with `Command::envs`. -/
def Runtime.command (r : Runtime) (connection_path : String) :
    Except CommandError Command :=
  let argv := r.spec.argv
  if argv.isEmpty then
    .error .emptyArgv
  else if argv.length < 2 then
    .error .invalidArgv
  else if !(argv.contains connectionFilePlaceholder) then
    .error .missingConnectionFilePlaceholder
  else
    let cmd := Command.new (argv.getD 0 "")
    let cmd := (argv.drop 1).foldl
      (fun c arg =>
        if arg = connectionFilePlaceholder then c.arg connection_path
        else c.arg arg)
      cmd
    let cmd :=
      match r.spec.env with
      | some env => cmd.addEnvs env
      | none => cmd
    .ok cmd

/-- The set of ports currently bound by listeners this code holds. -/
abbrev Bound := List Nat

/-- The OS's ephemeral-port assignment, modelled as an oracle: given the
sequence number of the bind and the ports currently held by this code's
listeners, the OS either assigns a port or fails the bind. -/
def ValidPick (pick : Nat → Bound → Option Nat) : Prop :=
  ∀ i bound p, pick i bound = some p → p ∉ bound

/-- One `TcpListener::bind` at port 0: the OS assigns a port, which becomes
bound while the listener lives. -/
def bindStep (pick : Nat → Bound → Option Nat) (i : Nat) (bound : Bound) :
    Option (Nat × Bound) :=
  match pick i bound with
  | none => none
  | some p => some (p, p :: bound)

/-- Dropping a listener releases its port. -/
def dropListener (p : Nat) (bound : Bound) : Bound := bound.erase p

/-- The loop of `peek_ports`: each iteration binds a listener at port 0,
records the assigned port, and drops the listener when it goes out of scope at
the end of the iteration — before the next bind. -/
def peek_ports_go (pick : Nat → Bound → Option Nat) :
    Nat → Bound → Nat → Option (List Nat)
  | _i, _bound, 0 => some []
  | i, bound, n + 1 =>
    match bindStep pick i bound with
    | none => none
    | some (p, bound1) =>
      match peek_ports_go pick (i + 1) (dropListener p bound1) n with
      | none => none
      | some ps => some (p :: ps)

/-- `peek_ports`: find `num` open ports by repeatedly binding a listener at
port 0 and recording the assigned port. -/
def peek_ports (pick : Nat → Bound → Option Nat) (num : Nat) :
    Option (List Nat) :=
  peek_ports_go pick 0 [] num

/-- `runtimelib::ConnectionInfo`: the connection descriptor written for a
kernel launch. -/
structure ConnectionInfo where
  transport : String
  ip : String
  stdin_port : Nat
  control_port : Nat
  hb_port : Nat
  shell_port : Nat
  iopub_port : Nat
  signature_scheme : String
  key : String
  kernel_name : Option String
deriving Repr, DecidableEq

/-- `from_peeking_ports`: build a `ConnectionInfo` from five peeked ports, in
the fixed positional order of the source.  The randomly generated signing key
(`uuid::Uuid::new_v4`) is passed in as a parameter. -/
def from_peeking_ports (pick : Nat → Bound → Option Nat) (ip : String)
    (key : String) (kernel_name : String) : Option ConnectionInfo :=
  match peek_ports pick 5 with
  | none => none
  | some ports =>
    some
      { transport := "tcp"
        ip := ip
        stdin_port := ports.getD 0 0
        control_port := ports.getD 1 0
        hb_port := ports.getD 2 0
        shell_port := ports.getD 3 0
        iopub_port := ports.getD 4 0
        signature_scheme := "hmac-sha256"
        key := key
        kernel_name := some kernel_name }

/-- The `project::Fs` capability, restricted to the operations this module
uses: directory test, file read, directory listing (a stream of per-entry
results, where obtaining the stream itself may also fail). -/
structure Fs where
  is_dir : KPath → Bool
  load : KPath → Except String String
  read_dir : KPath → Except String (List (Except String KPath))

/-- The failures of `read_kernelspec_at`, in the order the source produces
them: no final path segment, not a directory, `kernel.json` unreadable,
`kernel.json` unparsable. -/
inductive ReadError
  | invalidKernelspecDir
  | notADirectory
  | loadError (e : String)
  | malformedSpec (e : String)
deriving Repr, DecidableEq

/-- `read_kernelspec_at`: read one kernelspec directory.  The kernel name is
taken from the directory's final path segment before anything else; then the
path is checked to be a directory, `kernel.json` is loaded and parsed
(`serde_json::from_str::<JupyterKernelspec>`, passed in as the `parse`
capability). -/
def read_kernelspec_at (parse : String → Except String JupyterKernelspec)
    (kernel_dir : KPath) (fs : Fs) : Except ReadError Runtime :=
  match fileName kernel_dir with
  | none => .error .invalidKernelspecDir
  | some kernel_name =>
    if !(fs.is_dir kernel_dir) then
      .error .notADirectory
    else
      match fs.load (pathJoin kernel_dir "kernel.json") with
      | .error e => .error (.loadError e)
      | .ok contents =>
        match parse contents with
        | .error e => .error (.malformedSpec e)
        | .ok spec => .ok { name := kernel_name, path := kernel_dir, spec := spec }

/-- The body of the `read_kernels_dir` loop for one listing entry: an `Err`
entry is logged and skipped, a non-directory entry is ignored, and a directory
entry is pushed exactly when `read_kernelspec_at` succeeds on it. -/
def scanStep (parse : String → Except String JupyterKernelspec) (fs : Fs)
    (acc : List Runtime) (entry : Except String KPath) : List Runtime :=
  match entry with
  | .ok p =>
    if fs.is_dir p then
      match read_kernelspec_at parse p fs with
      | .ok kernelspec => acc ++ [kernelspec]
      | .error _ => acc
    else acc
  | .error _ => acc

/-- `read_kernels_dir`: read a directory of kernelspec directories.  Fails only
when the listing itself cannot be obtained; every per-entry failure is
skipped. -/
def read_kernels_dir (parse : String → Except String JupyterKernelspec)
    (path : KPath) (fs : Fs) : Except String (List Runtime) :=
  match fs.read_dir path with
  | .error e => .error e
  | .ok entries => .ok (entries.foldl (scanStep parse fs) [])

/-- `get_runtimes`: join the scans of `<data_dir>/kernels` over all platform
data directories (`runtimelib::dirs::data_dirs`, passed in as `data_dirs`),
keep the successful ones (`filter_map(Result::ok)`) and flatten. -/
def get_runtimes (parse : String → Except String JupyterKernelspec)
    (data_dirs : List KPath) (fs : Fs) : Except String (List Runtime) :=
  .ok ((((data_dirs.map (fun dir => pathJoin dir "kernels")).map
      (fun path => read_kernels_dir parse path fs)).filterMap
      Except.toOption).flatten)

/-! Concrete fixtures, used by witnesses and counterexamples. -/

/-- The python kernelspec of the source's own test. -/
def pySpec : JupyterKernelspec :=
  { argv := ["python3", "-m", "ipykernel_launcher", "-f", connectionFilePlaceholder]
    display_name := some "Python 3"
    language := some "python"
    env := some [] }

/-- A concrete parse capability: recognises the marker string `"PYSPEC"` as
`pySpec` and rejects everything else. -/
def parseDemo : String → Except String JupyterKernelspec :=
  fun s => if s = "PYSPEC" then .ok pySpec else .error "malformed"

/-- A python runtime rooted at a concrete directory. -/
def pyRuntime : Runtime :=
  { name := "python", path := ["jupyter", "kernels", "python"], spec := pySpec }

/-- A runtime whose spec has an empty `argv`. -/
def rtEmpty : Runtime :=
  { name := "empty", path := ["empty"], spec := { argv := [] } }

/-- A runtime whose spec has a single-token `argv`. -/
def rtSingle : Runtime :=
  { name := "single", path := ["single"], spec := { argv := ["python3"] } }

/-- A runtime whose `argv` has two tokens and no placeholder. -/
def rtNoPlaceholder : Runtime :=
  { name := "nophc", path := ["nophc"],
    spec := { argv := ["python3", "-m"] } }

/-- A runtime whose only placeholder occurrence is `argv[0]`, and whose second
token happens to equal the connection path used against it. -/
def rt9 : Runtime :=
  { name := "w", path := ["w"],
    spec := { argv := [connectionFilePlaceholder, "/tmp/conn.json"] } }

/-- A runtime whose spec sets the environment variable `FOO`. -/
def rtEnv : Runtime :=
  { name := "k", path := ["k"],
    spec := { argv := ["python3", "-f", connectionFilePlaceholder]
              env := some [("FOO", "2")] } }

/-- A parent-process environment in which `FOO` is already set. -/
def parentEnv : String → Option String :=
  fun k => if k = "FOO" then some "1" else none

/-- An OS oracle that assigns port 50000 whenever no listener is held (and
fails otherwise), legal because every listener of `peek_ports` is dropped
before the next bind. -/
def dupPick : Nat → Bound → Option Nat :=
  fun _ bound => if bound = [] then some 50000 else none

/-- An OS oracle assigning port `100 + i` to the `i`-th bind. -/
def seqPick : Nat → Bound → Option Nat :=
  fun i _ => some (100 + i)

/-- The parent directory of the scanner scenario: subdirectories `python`
(valid descriptor) and `broken` (no `kernel.json`). -/
def parentDir : KPath := ["jupyter", "kernels"]

/-- The filesystem of the scanner scenario. -/
def demoFs : Fs :=
  { is_dir := fun p =>
      p == parentDir || p == pathJoin parentDir "python" || p == pathJoin parentDir "broken"
    load := fun p =>
      if p = pathJoin (pathJoin parentDir "python") "kernel.json" then .ok "PYSPEC"
      else .error "no such file"
    read_dir := fun p =>
      if p = parentDir then
        .ok [.ok (pathJoin parentDir "python"), .ok (pathJoin parentDir "broken")]
      else .error "no such directory" }

/-- A filesystem with two base directories `a` and `b`, each holding a
`kernels/python` kernelspec, used for the registry scenario. -/
def twoBaseFs : Fs :=
  { is_dir := fun p =>
      p == ["a", "kernels", "python"] || p == ["b", "kernels", "python"]
    load := fun p =>
      if p = ["a", "kernels", "python", "kernel.json"]
          ∨ p = ["b", "kernels", "python", "kernel.json"] then .ok "PYSPEC"
      else .error "no such file"
    read_dir := fun p =>
      if p = ["a", "kernels"] then .ok [.ok ["a", "kernels", "python"]]
      else if p = ["b", "kernels"] then .ok [.ok ["b", "kernels", "python"]]
      else .error "no such directory" }

/-- A filesystem on which every path is a directory, used to show the
invalid-directory failure fires even on an existing directory. -/
def allDirFs : Fs :=
  { is_dir := fun _ => true
    load := fun _ => .error "unused"
    read_dir := fun _ => .error "unused" }

/-! Helper lemmas. -/

/-- The substitution loop of `Runtime::command` appends, to the accumulated
command, the tokens with exactly the placeholder occurrences replaced. -/
theorem command_foldl_args (cp : String) (l : List String) (c : Command) :
    l.foldl
      (fun c arg =>
        if arg = connectionFilePlaceholder then c.arg cp else c.arg arg) c
      = { c with
          args := c.args ++ l.map
            (fun a => if a = connectionFilePlaceholder then cp else a) } := by
  induction l generalizing c with
  | nil => simp
  | cons a l ih =>
    rw [List.foldl_cons, ih]
    by_cases h : a = connectionFilePlaceholder <;>
      simp [h, Command.arg, List.append_assoc]

/-- When the three guards pass, `Runtime::command` succeeds with the explicit
program, substituted arguments and spec environment. -/
theorem command_ok_of_valid (r : Runtime) (cp : String)
    (hlen : 2 ≤ r.spec.argv.length)
    (hc : r.spec.argv.contains connectionFilePlaceholder = true) :
    r.command cp = .ok
      { program := r.spec.argv.getD 0 ""
        args := (r.spec.argv.drop 1).map
          (fun a => if a = connectionFilePlaceholder then cp else a)
        env := (r.spec.env).getD [] } := by
  have h1 : r.spec.argv.isEmpty = false := by
    cases h : r.spec.argv with
    | nil => rw [h] at hlen; simp at hlen
    | cons a l => rfl
  have h2 : ¬ r.spec.argv.length < 2 := by omega
  have hmem : connectionFilePlaceholder ∈ r.spec.argv := by simpa using hc
  cases henv : r.spec.env with
  | some env =>
    simp [Runtime.command, h1, h2, hmem, henv, command_foldl_args, Command.new,
      Command.addEnvs]
  | none =>
    simp [Runtime.command, h1, h2, hmem, henv, command_foldl_args, Command.new]

/-- Any successful `Runtime::command` has the explicit program, substituted
arguments and spec environment. -/
theorem command_ok_shape (r : Runtime) (cp : String) (cmd : Command)
    (h : r.command cp = .ok cmd) :
    cmd.program = r.spec.argv.getD 0 "" ∧
    cmd.args = (r.spec.argv.drop 1).map
      (fun a => if a = connectionFilePlaceholder then cp else a) ∧
    cmd.env = (r.spec.env).getD [] := by
  by_cases h1 : r.spec.argv.isEmpty = true
  · simp [Runtime.command, h1] at h
  by_cases h2 : r.spec.argv.length < 2
  · simp [Runtime.command, h1, h2] at h
  by_cases h3 : r.spec.argv.contains connectionFilePlaceholder = true
  · rw [command_ok_of_valid r cp (by omega) h3] at h
    injection h with h
    subst h
    exact ⟨rfl, rfl, rfl⟩
  · have hmem : connectionFilePlaceholder ∉ r.spec.argv := by
      intro hm
      exact h3 (by simpa using hm)
    simp [Runtime.command, h1, h2, hmem] at h


/-- A variable whose name is not a key of the set environment entries is read
from the parent environment unchanged. -/
theorem applyEnvs_not_mem :
    ∀ (m : List (String × String)) (k : String), k ∉ m.map Prod.fst →
      ∀ parent : String → Option String,
      m.foldl (fun m2 kv k2 => if k2 = kv.1 then some kv.2 else m2 k2) parent k
        = parent k := by
  intro m
  induction m with
  | nil => intro k _ parent; rfl
  | cons kv rest ih =>
    intro k hk parent
    simp only [List.map_cons, List.mem_cons] at hk
    push_neg at hk
    rw [List.foldl_cons, ih k hk.2]
    simp [hk.1]

/-- A variable whose name is a key of the set environment entries (with the
keys pairwise distinct, as in a hash map) reads the entry's value. -/
theorem applyEnvs_lookup :
    ∀ (m : List (String × String)) (k v : String), (m.map Prod.fst).Nodup →
      m.lookup k = some v → ∀ parent : String → Option String,
      m.foldl (fun m2 kv k2 => if k2 = kv.1 then some kv.2 else m2 k2) parent k
        = some v := by
  intro m
  induction m with
  | nil => intro k v _ hl; cases hl
  | cons kv rest ih =>
    intro k v hnd hl parent
    simp only [List.map_cons, List.nodup_cons] at hnd
    rw [List.foldl_cons]
    by_cases hk : k = kv.1
    · have hbeq : (k == kv.1) = true := by simpa using hk
      simp only [List.lookup, hbeq] at hl
      have hk2 : k ∉ rest.map Prod.fst := by rw [hk]; exact hnd.1
      rw [applyEnvs_not_mem rest k hk2]
      simp [hk, hl]
    · have hbeq : (k == kv.1) = false := by simpa using hk
      simp only [List.lookup, hbeq] at hl
      exact ih k v hnd.2 hl _

/-- A successful `peek_ports` loop returns one port per iteration. -/
theorem peek_ports_go_length (pick : Nat → Bound → Option Nat) :
    ∀ (n i : Nat) (bound : Bound) (ps : List Nat),
      peek_ports_go pick i bound n = some ps → ps.length = n := by
  intro n
  induction n with
  | zero =>
    intro i bound ps h
    simp only [peek_ports_go] at h
    injection h with h
    rw [← h]
    rfl
  | succ n ih =>
    intro i bound ps h
    simp only [peek_ports_go] at h
    split at h
    · exact Option.noConfusion h
    next p bound1 _ =>
      split at h
      · exact Option.noConfusion h
      next ps2 hrec =>
        injection h with h
        subst h
        simp [ih (i + 1) (dropListener p bound1) ps2 hrec]

/-- The scanner loop accumulates, in listing order, exactly the directory
entries on which the reader succeeds. -/
theorem foldl_scanStep (parse : String → Except String JupyterKernelspec)
    (fs : Fs) (entries : List (Except String KPath)) (acc : List Runtime) :
    entries.foldl (scanStep parse fs) acc
      = acc ++ entries.filterMap (fun entry =>
          match entry with
          | .ok p =>
            if fs.is_dir p then (read_kernelspec_at parse p fs).toOption
            else none
          | .error _ => none) := by
  induction entries generalizing acc with
  | nil => simp
  | cons e es ih =>
    rw [List.foldl_cons, ih]
    cases e with
    | error err => simp [scanStep]
    | ok p =>
      by_cases hd : fs.is_dir p = true
      · cases hr : read_kernelspec_at parse p fs with
        | ok k => simp [scanStep, hd, hr, Except.toOption]
        | error err => simp [scanStep, hd, hr, Except.toOption]
      · simp [scanStep, hd]

/-! Claim theorems. -/

/-- C1: whenever the launch command builder succeeds, the produced command's
program is `argv[0]` and its arguments are `argv[1..]` in order, with every
token equal to the placeholder replaced by the connection-file path and every
other token passed unchanged. -/
theorem command_program_and_args (r : Runtime) (connection_path : String)
    (cmd : Command) (h : r.command connection_path = .ok cmd) :
    cmd.program = r.spec.argv.getD 0 "" ∧
    cmd.args = (r.spec.argv.drop 1).map
      (fun a => if a = connectionFilePlaceholder then connection_path else a) :=
  ⟨(command_ok_shape r connection_path cmd h).1,
   (command_ok_shape r connection_path cmd h).2.1⟩

/-- The command built in the round-trip example of C1. -/
def pyCommand : Command :=
  { program := "python3"
    args := ["-m", "ipykernel_launcher", "-f", "/tmp/conn.json"]
    env := [] }

/-- C1 witness: the round-trip example — argv
`["python3","-m","ipykernel_launcher","-f",placeholder]` with connection path
`/tmp/conn.json` yields program `python3` and arguments
`["-m","ipykernel_launcher","-f","/tmp/conn.json"]`. -/
theorem command_program_and_args_witness :
    pyRuntime.command "/tmp/conn.json" = .ok pyCommand ∧
    pyCommand.program = pyRuntime.spec.argv.getD 0 "" ∧
    pyCommand.args = (pyRuntime.spec.argv.drop 1).map
      (fun a => if a = connectionFilePlaceholder then "/tmp/conn.json" else a) := by
  have h : pyRuntime.command "/tmp/conn.json" = .ok pyCommand := by rfl
  exact ⟨h, command_program_and_args pyRuntime "/tmp/conn.json" pyCommand h⟩

/-- C2 counterexample: the empty `argv` fails with `EmptyArgv`, not
`InvalidArgv`, refuting the claim's "every argv of length < 2 yields
InvalidArgv". -/
theorem command_empty_argv_counterexample :
    rtEmpty.spec.argv.length < 2 ∧
    rtEmpty.command "/tmp/conn.json" = .error CommandError.emptyArgv ∧
    rtEmpty.command "/tmp/conn.json" ≠ .error CommandError.invalidArgv := by
  refine ⟨by decide, by rfl, ?_⟩
  intro h
  rw [show rtEmpty.command "/tmp/conn.json" = .error CommandError.emptyArgv
    from rfl] at h
  injection h with h
  exact CommandError.noConfusion h

/-- C2 (amended): an empty `argv` fails with `EmptyArgv`; a one-token `argv`
fails with `InvalidArgv`; an `argv` of two or more tokens none of which is the
placeholder fails with `MissingConnectionFilePlaceholder`. -/
theorem command_error_cases (r : Runtime) (cp : String) :
    (r.spec.argv = [] → r.command cp = .error CommandError.emptyArgv) ∧
    (r.spec.argv.length = 1 → r.command cp = .error CommandError.invalidArgv) ∧
    (2 ≤ r.spec.argv.length →
      r.spec.argv.contains connectionFilePlaceholder = false →
      r.command cp = .error CommandError.missingConnectionFilePlaceholder) := by
  refine ⟨fun h => ?_, fun h => ?_, fun h hc => ?_⟩
  · simp [Runtime.command, h]
  · have hne : r.spec.argv.isEmpty = false := by
      cases hl : r.spec.argv with
      | nil => rw [hl] at h; simp at h
      | cons a l => rfl
    simp [Runtime.command, hne, h]
  · have hne : r.spec.argv.isEmpty = false := by
      cases hl : r.spec.argv with
      | nil => rw [hl] at h; simp at h
      | cons a l => rfl
    have h2 : ¬ r.spec.argv.length < 2 := by omega
    have hmem : connectionFilePlaceholder ∉ r.spec.argv := by
      simp at hc
      exact hc
    simp [Runtime.command, hne, h2, hmem]

/-- C2 witness: the three error cases at concrete specifications. -/
theorem command_error_cases_witness :
    rtEmpty.command "/tmp/conn.json" = .error CommandError.emptyArgv ∧
    rtSingle.command "/tmp/conn.json" = .error CommandError.invalidArgv ∧
    rtNoPlaceholder.command "/tmp/conn.json"
      = .error CommandError.missingConnectionFilePlaceholder :=
  ⟨(command_error_cases rtEmpty "/tmp/conn.json").1 rfl,
   (command_error_cases rtSingle "/tmp/conn.json").2.1 rfl,
   (command_error_cases rtNoPlaceholder "/tmp/conn.json").2.2 (by decide) (by rfl)⟩

/-- C3 counterexample: a legal OS behaviour (it never assigns a port that is
currently bound) under which `peek_ports` returns the same port twice — every
listener is dropped at the end of its loop iteration, before the next bind, so
the OS may hand the released port out again. -/
theorem peek_ports_duplicate_counterexample :
    ValidPick dupPick ∧
    peek_ports dupPick 2 = some [50000, 50000] ∧
    ¬ ([50000, 50000] : List Nat).Nodup := by
  refine ⟨?_, by rfl, by decide⟩
  intro i bound p hp
  by_cases hb : bound = []
  · subst hb
    simp
  · simp [dupPick, hb] at hp

/-- C3 (amended): a successful `peek_ports` returns exactly `num` ports (their
pairwise distinctness is not guaranteed by the code). -/
theorem peek_ports_count (pick : Nat → Bound → Option Nat) (num : Nat)
    (ps : List Nat) (h : peek_ports pick num = some ps) : ps.length = num :=
  peek_ports_go_length pick num 0 [] ps h

/-- C3 witness: an OS assigning ports 100..104 in sequence. -/
theorem peek_ports_count_witness :
    peek_ports seqPick 5 = some [100, 101, 102, 103, 104] ∧
    ([100, 101, 102, 103, 104] : List Nat).length = 5 :=
  ⟨by rfl, peek_ports_count seqPick 5 [100, 101, 102, 103, 104] (by rfl)⟩

/-- C4: a successful `read_kernelspec_at` names the specification after the
final path segment of the input directory, for every parse capability and
every filesystem — independent of the contents of `kernel.json`. -/
theorem read_kernelspec_name_from_dir
    (parse : String → Except String JupyterKernelspec) (dir : KPath) (fs : Fs)
    (r : Runtime) (h : read_kernelspec_at parse dir fs = .ok r) :
    fileName dir = some r.name := by
  unfold read_kernelspec_at at h
  split at h
  · exact Except.noConfusion h
  next nm hfn =>
    rw [hfn]
    split at h
    · exact Except.noConfusion h
    · split at h
      · exact Except.noConfusion h
      · split at h
        · exact Except.noConfusion h
        · injection h with h
          rw [← h]

/-- C4 witness: reading the `python` kernelspec directory of the demo
filesystem names the runtime `python`, the directory's final segment. -/
theorem read_kernelspec_name_from_dir_witness :
    read_kernelspec_at parseDemo (pathJoin parentDir "python") demoFs
      = .ok pyRuntime ∧
    fileName (pathJoin parentDir "python") = some pyRuntime.name :=
  ⟨by rfl,
   read_kernelspec_name_from_dir parseDemo (pathJoin parentDir "python") demoFs
     pyRuntime (by rfl)⟩

/-- C5: once the listing stream is obtained, the scan returns `Ok`; listing
errors and non-directory entries are dropped, and a directory entry appears
exactly when the reader succeeds on it, in listing order — so a per-entry
failure never aborts the scan and every valid sibling is kept. -/
theorem read_kernels_dir_partial_failure
    (parse : String → Except String JupyterKernelspec) (path : KPath) (fs : Fs)
    (entries : List (Except String KPath))
    (h : fs.read_dir path = .ok entries) :
    read_kernels_dir parse path fs
      = .ok (entries.filterMap (fun entry =>
          match entry with
          | .ok p =>
            if fs.is_dir p then (read_kernelspec_at parse p fs).toOption
            else none
          | .error _ => none)) := by
  unfold read_kernels_dir
  rw [h]
  show Except.ok (entries.foldl (scanStep parse fs) []) = _
  rw [foldl_scanStep]
  simp

/-- C5 witness: the parent with subdirectories `python` (valid) and `broken`
(no `kernel.json`) scans to exactly one specification, named `python`. -/
theorem read_kernels_dir_partial_failure_witness :
    demoFs.read_dir parentDir
      = .ok [.ok (pathJoin parentDir "python"), .ok (pathJoin parentDir "broken")] ∧
    read_kernels_dir parseDemo parentDir demoFs = .ok [pyRuntime] ∧
    pyRuntime.name = "python" := by
  have h : demoFs.read_dir parentDir
      = .ok [.ok (pathJoin parentDir "python"), .ok (pathJoin parentDir "broken")] := by
    rfl
  refine ⟨h, ?_, rfl⟩
  rw [read_kernels_dir_partial_failure parseDemo parentDir demoFs _ h]
  rfl

/-- Keeping only the `Ok` scan results and flattening is the same as
flattening with each failed scan contributing the empty list. -/
theorem flatten_filterMap_toOption (rs : List (Except String (List Runtime))) :
    (rs.filterMap Except.toOption).flatten
      = (rs.map (fun res =>
          match res with
          | .ok ks => ks
          | .error _ => [])).flatten := by
  induction rs with
  | nil => rfl
  | cons res rs ih =>
    cases res with
    | ok ks => simp [Except.toOption, ih]
    | error e => simp [Except.toOption, ih]

/-- The python runtime discovered under base directory `a`. -/
def rtPyA : Runtime :=
  { name := "python", path := ["a", "kernels", "python"], spec := pySpec }

/-- The python runtime discovered under base directory `b`. -/
def rtPyB : Runtime :=
  { name := "python", path := ["b", "kernels", "python"], spec := pySpec }

/-- C6: `get_runtimes` returns `Ok` of the concatenation of the per-base-
directory scans of `<dir>/kernels`, a failed scan contributing zero entries
and propagating no error; and no deduplication by name happens — the
same-named kernels of two base directories both appear. -/
theorem get_runtimes_concat_no_dedup :
    (∀ (parse : String → Except String JupyterKernelspec)
       (data_dirs : List KPath) (fs : Fs),
      get_runtimes parse data_dirs fs
        = .ok ((data_dirs.map (fun dir =>
            match read_kernels_dir parse (pathJoin dir "kernels") fs with
            | .ok ks => ks
            | .error _ => [])).flatten)) ∧
    get_runtimes parseDemo [["a"], ["b"]] twoBaseFs = .ok [rtPyA, rtPyB] ∧
    rtPyA.name = rtPyB.name := by
  refine ⟨fun parse data_dirs fs => ?_, by rfl, rfl⟩
  unfold get_runtimes
  congr 1
  rw [flatten_filterMap_toOption, List.map_map, List.map_map]
  rfl

/-- C7: a successfully built `ConnectionInfo` takes its five ports from the
peeked ports in the fixed positional order stdin, control, heartbeat, shell,
iopub. -/
theorem from_peeking_ports_positional (pick : Nat → Bound → Option Nat)
    (ip key kernel_name : String) (ports : List Nat) (ci : ConnectionInfo)
    (hports : peek_ports pick 5 = some ports)
    (h : from_peeking_ports pick ip key kernel_name = some ci) :
    ci.stdin_port = ports.getD 0 0 ∧ ci.control_port = ports.getD 1 0 ∧
    ci.hb_port = ports.getD 2 0 ∧ ci.shell_port = ports.getD 3 0 ∧
    ci.iopub_port = ports.getD 4 0 := by
  unfold from_peeking_ports at h
  rw [hports] at h
  injection h with h
  rw [← h]
  exact ⟨rfl, rfl, rfl, rfl, rfl⟩

/-- The connection descriptor built from ports 100..104. -/
def ciDemo : ConnectionInfo :=
  { transport := "tcp"
    ip := "127.0.0.1"
    stdin_port := 100
    control_port := 101
    hb_port := 102
    shell_port := 103
    iopub_port := 104
    signature_scheme := "hmac-sha256"
    key := "key"
    kernel_name := some "python" }

/-- C7 witness: with ports 100..104 the descriptor fields follow the fixed
positional order. -/
theorem from_peeking_ports_positional_witness :
    peek_ports seqPick 5 = some [100, 101, 102, 103, 104] ∧
    from_peeking_ports seqPick "127.0.0.1" "key" "python" = some ciDemo ∧
    (ciDemo.stdin_port = ([100, 101, 102, 103, 104] : List Nat).getD 0 0 ∧
     ciDemo.control_port = ([100, 101, 102, 103, 104] : List Nat).getD 1 0 ∧
     ciDemo.hb_port = ([100, 101, 102, 103, 104] : List Nat).getD 2 0 ∧
     ciDemo.shell_port = ([100, 101, 102, 103, 104] : List Nat).getD 3 0 ∧
     ciDemo.iopub_port = ([100, 101, 102, 103, 104] : List Nat).getD 4 0) :=
  ⟨by rfl, by rfl,
   from_peeking_ports_positional seqPick "127.0.0.1" "key" "python"
     [100, 101, 102, 103, 104] ciDemo (by rfl) (by rfl)⟩

/-- The command built for `rtEnv` with connection path `/tmp/conn.json`. -/
def cmdEnv : Command :=
  { program := "python3", args := ["-f", "/tmp/conn.json"], env := [("FOO", "2")] }

/-- C8 counterexample: a spec environment entry whose name collides with an
inherited variable replaces the inherited value — parent `FOO=1` becomes
`FOO=2` in the child, refuting "no inherited variable's existing value is
replaced". -/
theorem command_env_replaces_inherited :
    rtEnv.command "/tmp/conn.json" = .ok cmdEnv ∧
    parentEnv "FOO" = some "1" ∧
    cmdEnv.childEnv parentEnv "FOO" = some "2" := ⟨rfl, rfl, rfl⟩

/-- C8 (amended): the spec environment is merged into the child environment
with the mapping taking precedence — an inherited variable whose name is not a
key of the mapping is left unchanged, and an inherited variable whose name is
a key of the mapping receives the mapping's value. -/
theorem command_env_merge (r : Runtime) (cp : String) (cmd : Command)
    (m : List (String × String)) (parent : String → Option String) (k : String)
    (henv : r.spec.env = some m) (h : r.command cp = .ok cmd) :
    (k ∉ m.map Prod.fst → cmd.childEnv parent k = parent k) ∧
    (∀ v, (m.map Prod.fst).Nodup → m.lookup k = some v →
      cmd.childEnv parent k = some v) := by
  have henv2 : cmd.env = m := by
    rw [(command_ok_shape r cp cmd h).2.2, henv]
    rfl
  unfold Command.childEnv
  rw [henv2]
  exact ⟨fun hk => applyEnvs_not_mem m k hk parent,
    fun v hnd hl => applyEnvs_lookup m k v hnd hl parent⟩

/-- C8 witness: for the concrete spec mapping `FOO=2` over a parent with
`FOO=1` and no `BAR`, the child leaves `BAR` untouched and sets `FOO` to the
mapping's value. -/
theorem command_env_merge_witness :
    cmdEnv.childEnv parentEnv "BAR" = parentEnv "BAR" ∧
    cmdEnv.childEnv parentEnv "FOO" = some "2" :=
  ⟨(command_env_merge rtEnv "/tmp/conn.json" cmdEnv [("FOO", "2")] parentEnv
      "BAR" rfl rfl).1 (by decide),
   (command_env_merge rtEnv "/tmp/conn.json" cmdEnv [("FOO", "2")] parentEnv
      "FOO" rfl rfl).2 "2" (by decide) (by decide)⟩

/-- The command built for `rt9` with connection path `/tmp/conn.json`: no
substitution happens, yet one argument equals the connection path. -/
def cmd9 : Command :=
  { program := connectionFilePlaceholder, args := ["/tmp/conn.json"], env := [] }

/-- C9 counterexample: with the placeholder only at `argv[0]`, the builder
succeeds and substitutes nothing, but an argument can still equal the
connection-file path when that path occurs literally in `argv[1..]` — refuting
"no argument of the command equals the connection-file path". -/
theorem command_placeholder_head_counterexample :
    rt9.spec.argv.getD 0 "" = connectionFilePlaceholder ∧
    connectionFilePlaceholder ∉ rt9.spec.argv.drop 1 ∧
    rt9.command "/tmp/conn.json" = .ok cmd9 ∧
    cmd9.args.contains "/tmp/conn.json" = true := ⟨rfl, by decide, rfl, rfl⟩

/-- C9 (amended): when `argv` has at least two tokens and its only placeholder
occurrence is `argv[0]`, the builder succeeds (the placeholder check counts
`argv[0]`), the program is the literal placeholder string and the arguments
are `argv[1..]` unchanged — substitution is applied only to tokens after the
first. -/
theorem command_placeholder_only_head (r : Runtime) (cp : String)
    (hlen : 2 ≤ r.spec.argv.length)
    (hhead : r.spec.argv.getD 0 "" = connectionFilePlaceholder)
    (htail : connectionFilePlaceholder ∉ r.spec.argv.drop 1) :
    r.command cp = .ok
      { program := connectionFilePlaceholder
        args := r.spec.argv.drop 1
        env := (r.spec.env).getD [] } := by
  have hc : r.spec.argv.contains connectionFilePlaceholder = true := by
    cases hl : r.spec.argv with
    | nil => rw [hl] at hlen; simp at hlen
    | cons a rest =>
      rw [hl] at hhead
      simp only [List.getD_cons_zero] at hhead
      simp [hhead]
  rw [command_ok_of_valid r cp hlen hc, hhead]
  have hargs : (r.spec.argv.drop 1).map
      (fun a => if a = connectionFilePlaceholder then cp else a)
      = r.spec.argv.drop 1 := by
    conv_rhs => rw [← List.map_id (r.spec.argv.drop 1)]
    apply List.map_congr_left
    intro a ha
    simp only [id]
    rw [if_neg]
    intro hEq
    exact htail (hEq ▸ ha)
  rw [hargs]

/-- C9 witness: `rt9` under a connection path not occurring in its `argv`: the
builder succeeds, the program is the literal placeholder and the arguments are
`argv[1..]` unchanged. -/
theorem command_placeholder_only_head_witness :
    rt9.command "/x.json" = .ok
      { program := connectionFilePlaceholder
        args := rt9.spec.argv.drop 1
        env := (rt9.spec.env).getD [] } :=
  command_placeholder_only_head rt9 "/x.json" (by decide) (by rfl) (by decide)

/-- C10: a path with no final segment fails with the invalid-directory error
for every parse capability and every filesystem — so before, and independently
of, any filesystem operation, including the is-directory check. -/
theorem read_kernelspec_invalid_dir
    (parse : String → Except String JupyterKernelspec) (p : KPath) (fs : Fs)
    (h : fileName p = none) :
    read_kernelspec_at parse p fs = .error ReadError.invalidKernelspecDir := by
  unfold read_kernelspec_at
  rw [h]

/-- C10 witness: the root path on a filesystem where every path is an existing
directory still fails with the invalid-directory error. -/
theorem read_kernelspec_invalid_dir_witness :
    allDirFs.is_dir [] = true ∧
    read_kernelspec_at parseDemo [] allDirFs
      = .error ReadError.invalidKernelspecDir :=
  ⟨rfl, read_kernelspec_invalid_dir parseDemo [] allDirFs (by rfl)⟩
